import Mathlib

/-!
Verification of the env-code-agent pipeline against its specification.

The development shallowly embeds the repository's Python sources:
* `src/src/cli.py` — the pipeline driver `main` (modelled as `runMain`, a pure
  function from the credential, the parsed arguments, and the behaviour of the
  three stage agents to an exit code together with an ordered event trace);
* `src/output-realworld/cloned-env/mcp/src/realworld_mcp/server.py` — the
  generated MCP server's `call_tool` dispatcher;
* `src/output-realworld/cloned-env/mcp/src/realworld_mcp/client.py` — the
  generated client's `_request` and `search_articles`.

The agent modules (`ExplorationAgent`, `SpecificationAgent`,
`CodeGeneratorAgent`) are not part of the sources here — only their caller in
`cli.py` is — so where a claim is about them they are modelled from the
specification, and each such definition says so in its doc comment.
-/

namespace EnvCodeAgent

/-! ## Data model (spec §3, as consumed by `cli.py`) -/

/-- One recorded exploration fact: `cli.py` reads `obs["category"]` and
`obs["observation"]` when printing. -/
structure Observation where
  category : String
  observation : String
deriving DecidableEq, Repr

/-- `ExplorationResult` dictionary as read by `cli.py`
(`success`, `iterations`, `summary`, `observations`). -/
structure ExplorationResult where
  success : Bool
  iterations : Nat
  summary : String
  observations : List Observation
deriving DecidableEq, Repr

/-- A table of the inferred structural model (spec §3 `TableSpec`). -/
structure TableSpec where
  name : String
deriving DecidableEq, Repr

/-- The `database` part of a specification (`spec["database"]["tables"]`). -/
structure Database where
  tables : List TableSpec
deriving DecidableEq, Repr

/-- An endpoint of the inferred structural model (spec §3 `EndpointSpec`). -/
structure EndpointSpec where
  path : String
  method : String
  tableRefs : List String
deriving DecidableEq, Repr

/-- The structural model handed from the Specification Synthesizer to the
Scaffold Generator (`spec["endpoints"]`, `spec["database"]["tables"]`). -/
structure Specification where
  endpoints : List EndpointSpec
  database : Database
deriving DecidableEq, Repr

/-- Result dictionary of `SpecificationAgent.generate_spec` as read by
`cli.py` (`success`, `specification`). -/
structure SpecResult where
  success : Bool
  specification : Specification
deriving DecidableEq, Repr

/-- Result dictionary of `CodeGeneratorAgent.generate_code` as read by
`cli.py` (`success`, `generated_files`). -/
structure ScaffoldResult where
  success : Bool
  generated_files : List String
deriving DecidableEq, Repr

/-! ## The driver `main` of `src/src/cli.py` -/

/-- The `command` positional argument: `argparse` restricts it to
`clone` or `explore`. -/
inductive Command
  | clone
  | explore
deriving DecidableEq, Repr

/-- The parsed command line as used by `main`. -/
structure Args where
  command : Command
  target_url : String
  output : String
  endpoints : Option (List String)
deriving Repr

/-- The behaviour of the three stage agents, abstracted: `main` only invokes
`explore(starting_endpoints)`, `generate_spec(observations, target_url)` and,
on a `CodeGeneratorAgent` constructed with the output directory,
`generate_code(specification)`, and then inspects the returned dictionaries;
the driver is therefore a function of these three operations. -/
structure Stages where
  explore : Option (List String) → ExplorationResult
  generate_spec : List Observation → String → SpecResult
  generate_code : String → Specification → ScaffoldResult

/-- Externally visible events of a driver run, in program order: construction
of the `LLMClient` gateway, the exploration call, the printing of the
exploration result (`cli.py` lines 83–94), the specification call,
`os.makedirs` of the output directory, and the code-generation call on the
generator constructed with that directory. -/
inductive Event
  | gatewayInit
  | exploreCall
  | printExploration
  | specCall
  | mkdir (dir : String)
  | codeCall (dir : String)
deriving DecidableEq, Repr

/-- Python truthiness of the `ANTHROPIC_API_KEY` lookup: `os.getenv` yields
`None` when the variable is unset, and `if not api_key` also treats the empty
string as missing. -/
def apiKeyMissing : Option String → Bool
  | none => true
  | some s => s.isEmpty

/-- `os.path.join a b` for a relative second component, as in
`os.path.join(args.output, "cloned-env")`. -/
def path_join (a b : String) : String :=
  if a = "" then b
  else if a.endsWith "/" then a ++ b
  else a ++ "/" ++ b

/-- Shallow embedding of `main` from `src/src/cli.py` (after argument
parsing): returns the process exit code (falling off the end of a branch is
exit code 0, `sys.exit(1)` is 1) together with the ordered trace of events.
Mirrors lines 56–141: credential check, gateway construction, exploration,
result printing, early return for the `explore` command, specification
synthesis with failure exit, output-directory creation, code generation with
failure exit. Note that `exploration_result["success"]` is only printed
(line 87), never tested. -/
def runMain (apiKey : Option String) (args : Args) (st : Stages) :
    Nat × List Event :=
  if apiKeyMissing apiKey then (1, [])
  else
    let er := st.explore args.endpoints
    let ev1 := [Event.gatewayInit, Event.exploreCall, Event.printExploration]
    if args.command = Command.explore then (0, ev1)
    else
      let sr := st.generate_spec er.observations args.target_url
      let ev2 := ev1 ++ [Event.specCall]
      if sr.success = false then (1, ev2)
      else
        let dir := path_join args.output "cloned-env"
        let ev3 := ev2 ++ [Event.mkdir dir]
        let cr := st.generate_code dir sr.specification
        let ev4 := ev3 ++ [Event.codeCall dir]
        if cr.success = false then (1, ev4) else (0, ev4)

/-- The full event trace of a `clone` run that reaches code generation; every
run's trace is a prefix of it. -/
def fullTrace (args : Args) : List Event :=
  [Event.gatewayInit, Event.exploreCall, Event.printExploration,
   Event.specCall, Event.mkdir (path_join args.output "cloned-env"),
   Event.codeCall (path_join args.output "cloned-env")]

/-- Stage behaviour with a failed exploration: `explore` reports
`success = false`, the later stages succeed. -/
def failedExplorationStages : Stages where
  explore := fun _ =>
    { success := false, iterations := 0, summary := "", observations := [] }
  generate_spec := fun _ _ =>
    { success := true
      specification := { endpoints := [], database := { tables := [] } } }
  generate_code := fun _ _ =>
    { success := true, generated_files := [] }

/-- Stage behaviour with a failed specification synthesis. -/
def specFailStages : Stages where
  explore := fun _ =>
    { success := true, iterations := 1, summary := "", observations := [] }
  generate_spec := fun _ _ =>
    { success := false
      specification := { endpoints := [], database := { tables := [] } } }
  generate_code := fun _ _ =>
    { success := true, generated_files := [] }

/-- Stage behaviour where every stage succeeds. -/
def allOkStages : Stages where
  explore := fun _ =>
    { success := true, iterations := 1, summary := ""
      observations := [{ category := "endpoint", observation := "GET /" }] }
  generate_spec := fun _ _ =>
    { success := true
      specification :=
        { endpoints := [{ path := "/", method := "GET", tableRefs := [] }]
          database := { tables := [] } } }
  generate_code := fun _ _ =>
    { success := true, generated_files := ["mcp/client.py"] }

/-- Arguments of an `explore` run. -/
def exploreArgs : Args :=
  { command := Command.explore, target_url := "http://localhost:3001",
    output := "./output", endpoints := none }

/-- Arguments of a `clone` run. -/
def cloneArgs : Args :=
  { command := Command.clone, target_url := "http://localhost:3001",
    output := "./output", endpoints := none }

/-! ## Exploration Engine (modelled from the spec §4.1) -/

/-- Modelled from the spec: the effect of one iteration of the Exploration
Engine (§4.1) — the selected probe's raw response classified into
observations, newly extracted frontier candidates, and the stopping policy's
verdict. `ExplorationAgent` is not among the repository sources (only its
caller in `cli.py` is), so the engine is modelled from §4.1's state machine,
parameterised by the per-iteration outcome. -/
structure ProbeStep where
  newObservations : List Observation
  newFrontier : List String
  converged : Bool

/-- Modelled from the spec (§4.1): the iteration loop of `explore`. `probe`
yields each iteration's outcome from the current log and frontier; the loop
stops on convergence (`Converged`), on an empty frontier, or when the
remaining budget `fuel` runs out (`ExhaustedBudget`), returning the number of
iterations used together with the final observation log. -/
def exploreLoop (probe : List Observation → List String → ProbeStep) :
    Nat → List Observation → List String → Nat → Nat × List Observation
  | 0, obs, _, used => (used, obs)
  | _ + 1, obs, [], used => (used, obs)
  | fuel + 1, obs, target :: rest, used =>
      let step := probe obs (target :: rest)
      let obs2 := obs ++ step.newObservations
      let frontier2 := rest ++ step.newFrontier.filter (fun p => !rest.contains p)
      if step.converged then (used + 1, obs2)
      else exploreLoop probe fuel obs2 frontier2 (used + 1)

/-- Modelled from the spec (§4.1, §3):
`explore(starting_endpoints?, max_iterations) -> ExplorationResult`. Seeds the
frontier with `starting_endpoints` when given, else a root path; iterates at
most `max_iterations` times; `success` is `false` exactly when zero
`endpoint`-category observations were recorded. -/
def explore (probe : List Observation → List String → ProbeStep)
    (starting_endpoints : Option (List String)) (max_iterations : Nat) :
    ExplorationResult :=
  let frontier :=
    match starting_endpoints with
    | some eps => eps
    | none => ["/"]
  let r := exploreLoop probe max_iterations [] frontier 0
  { success := r.2.any fun o => o.category == "endpoint"
    iterations := r.1
    summary := "exploration finished"
    observations := r.2 }

/-! ## Scaffold Generator (modelled from the spec §4.3) -/

/-- Modelled from the spec (§4.3, §6): the file paths the Scaffold Generator
emits for a specification — the generated client, the generated
tool-interface server, and per-table schema and seed scaffolding.
(`CodeGeneratorAgent` is not among the repository sources; only its caller in
`cli.py` is.) -/
def generatedPaths (s : Specification) : List String :=
  ["mcp/client.py", "mcp/server.py"]
    ++ s.database.tables.map (fun t => "db/schema/" ++ t.name ++ ".sql")
    ++ s.database.tables.map (fun t => "db/seed/" ++ t.name ++ ".sql")

/-- Modelled from the spec (§4.3, §7, §8):
`generate_code(specification) -> ScaffoldResult`. `writeOk` models per-file
write success (a `GenerationIOError` is fatal for that file only); written
files are retained, the overall `success` is `false` on any write failure,
and a specification with zero endpoints yields `success = false` with no
files. -/
def generate_code (s : Specification) (writeOk : String → Bool) :
    ScaffoldResult :=
  if s.endpoints.isEmpty then { success := false, generated_files := [] }
  else
    { success := (generatedPaths s).all writeOk
      generated_files := (generatedPaths s).filter writeOk }

/-- A sample specification with one endpoint and one table. -/
def sampleSpecification : Specification :=
  { endpoints := [{ path := "/articles", method := "GET", tableRefs := ["articles"] }]
    database := { tables := [{ name := "articles" }] } }

/-! ## Generated MCP server: `call_tool`
(`src/output-realworld/cloned-env/mcp/src/realworld_mcp/server.py`) -/

/-- The tool names with a dispatch branch in `call_tool`, in source order. -/
def knownToolNames : List String :=
  ["get_articles", "get_article", "get_article_comments", "get_profile",
   "get_tags", "search_articles", "health_check"]

/-- One `{"type": "text", "text": ...}` content item. -/
structure TextContent where
  type : String
  text : String
deriving DecidableEq, Repr

/-- The `arguments` dictionary of a tool call. -/
abbrev ToolArgs := List (String × String)

/-- The body of each known tool's branch, abstracted: each branch fetches
data through the client and renders it to a text summary, either producing
the text or raising an exception carrying `str(e)`. -/
structure ToolHandlers where
  get_articles : ToolArgs → Except String String
  get_article : ToolArgs → Except String String
  get_article_comments : ToolArgs → Except String String
  get_profile : ToolArgs → Except String String
  get_tags : ToolArgs → Except String String
  search_articles : ToolArgs → Except String String
  health_check : ToolArgs → Except String String

/-- `[{"type": "text", "text": t}]` — each branch of the `try` block in
`call_tool` returns a singleton list of this shape. -/
def textItem (t : String) : List TextContent := [{ type := "text", text := t }]

/-- The `try` block of `call_tool` (server.py lines 136–248): the `if/elif`
dispatch over tool names in source order, the unknown-name fallback, and the
possibility of an exception escaping a known tool's body. -/
def dispatchTool (h : ToolHandlers) (name : String) (args : ToolArgs) :
    Except String (List TextContent) :=
  if name = "get_articles" then (h.get_articles args).map textItem
  else if name = "get_article" then (h.get_article args).map textItem
  else if name = "get_article_comments" then (h.get_article_comments args).map textItem
  else if name = "get_profile" then (h.get_profile args).map textItem
  else if name = "get_tags" then (h.get_tags args).map textItem
  else if name = "search_articles" then (h.search_articles args).map textItem
  else if name = "health_check" then (h.health_check args).map textItem
  else Except.ok (textItem ("Unknown tool: " ++ name))

/-- `call_tool` of the generated MCP server (server.py lines 132–252): the
dispatch wrapped in `try/except Exception`, the handler rendering any
exception as an `"Error executing {name}: {e}"` text item. -/
def call_tool (h : ToolHandlers) (name : String) (args : ToolArgs) :
    List TextContent :=
  match dispatchTool h name args with
  | Except.ok items => items
  | Except.error e => textItem ("Error executing " ++ name ++ ": " ++ e)

/-- Handlers that all succeed with an empty summary. -/
def trivialHandlers : ToolHandlers where
  get_articles := fun _ => Except.ok "ok"
  get_article := fun _ => Except.ok "ok"
  get_article_comments := fun _ => Except.ok "ok"
  get_profile := fun _ => Except.ok "ok"
  get_tags := fun _ => Except.ok "ok"
  search_articles := fun _ => Except.ok "ok"
  health_check := fun _ => Except.ok "ok"

/-! ## Generated client: `search_articles` and `_request`
(`src/output-realworld/cloned-env/mcp/src/realworld_mcp/client.py`) -/

/-- An article as read by `search_articles`: only `title`, `description` and
`body` are consulted, each through `article.get(key, "")`, so a missing field
is `None` here and reads as `""`. -/
structure Article where
  title : Option String
  description : Option String
  body : Option String
deriving DecidableEq, Repr

/-- The response of `get_articles(limit=50)` as consulted by
`search_articles`: `articles.get("articles")` may be missing (`none`) or a
list. -/
structure ArticlesPage where
  articles : Option (List Article)
deriving DecidableEq, Repr

/-- The dictionary returned by `search_articles`. -/
structure SearchResult where
  articles : List Article
  articlesCount : Nat
deriving DecidableEq, Repr

/-- Whether `needle` occurs as a contiguous run of `hay`. -/
def subOccurs (needle : List Char) : List Char → Bool
  | [] => needle.isEmpty
  | c :: rest => needle.isPrefixOf (c :: rest) || subOccurs needle rest

/-- Python's substring test `needle in hay`. -/
def strIn (needle hay : String) : Bool := subOccurs needle.data hay.data

/-- `article.get(key, "").lower()` — a missing field reads as `""`. -/
def fieldLower (f : Option String) : String := (f.getD "").toLower

/-- The match test of `search_articles` (client.py lines 98–100): the lowered
query occurs in the lowered title, description, or body. -/
def articleMatches (query_lower : String) (a : Article) : Bool :=
  strIn query_lower (fieldLower a.title) ||
  strIn query_lower (fieldLower a.description) ||
  strIn query_lower (fieldLower a.body)

/-- The accumulation loop of `search_articles` (client.py lines 97–103):
append each matching article, breaking once at least `limit` matches are
collected. -/
def searchLoop (query_lower : String) (limit : Int) :
    List Article → List Article → List Article
  | acc, [] => acc
  | acc, a :: rest =>
      if articleMatches query_lower a then
        if ((acc ++ [a]).length : Int) ≥ limit then acc ++ [a]
        else searchLoop query_lower limit (acc ++ [a]) rest
      else searchLoop query_lower limit acc rest

/-- `search_articles(query, limit)` of the generated client (client.py lines
85–108): the first fetched page is the response to `get_articles(limit=50)`,
modelled as the `page` argument; a missing or empty `articles` field returns
the empty result; otherwise the page is filtered by `articleMatches` up to
`limit` matches and `articlesCount` is the length of the collected list. -/
def search_articles (page : ArticlesPage) (query : String) (limit : Int) :
    SearchResult :=
  match page.articles with
  | none => { articles := [], articlesCount := 0 }
  | some [] => { articles := [], articlesCount := 0 }
  | some arts =>
      let ms := searchLoop query.toLower limit [] arts
      { articles := ms, articlesCount := ms.length }

/-- A sample page of two articles, one matching the query `"lean"`. -/
def samplePage : ArticlesPage :=
  { articles := some
      [{ title := some "Intro to Lean", description := some "theorem proving",
         body := some "curly text" },
       { title := some "Cooking", description := none,
         body := some "pasta recipes" }] }

/-- The outcome of the HTTP attempt inside `_request`, from the embedding's
point of view: a response arrived (with its status code, what `.json()`
would yield — the parsed value or the decode error's message — and what
`str(HTTPStatusError)` would be if `raise_for_status` raised), or
`client.request` raised an `httpx.HTTPError` (transport error), or it raised
some other exception. -/
inductive HttpAttempt (α : Type)
  | response (status : Nat) (json : Except String α) (statusMsg : String)
  | httpError (msg : String)
  | otherError (msg : String)

/-- `Response.is_success` of httpx: status in 200–299; `raise_for_status`
raises exactly when this is false. -/
def is_success (status : Nat) : Bool := decide (200 ≤ status) && decide (status < 300)

/-- `_request` of the generated client (client.py lines 25–37): on a 2xx
response return the parsed JSON body; `raise_for_status` on a non-2xx
response raises `httpx.HTTPStatusError`, which — like any transport-level
`httpx.HTTPError` — is re-raised as `"API request failed: {e}"`; any other
exception in the `try` block (notably a JSON decode failure of a 2xx body)
is re-raised as `"Request error: {e}"`. -/
def httpRequest {α : Type} (attempt : HttpAttempt α) : Except String α :=
  match attempt with
  | HttpAttempt.response status json statusMsg =>
      if is_success status then
        match json with
        | Except.ok v => Except.ok v
        | Except.error m => Except.error ("Request error: " ++ m)
      else Except.error ("API request failed: " ++ statusMsg)
  | HttpAttempt.httpError m => Except.error ("API request failed: " ++ m)
  | HttpAttempt.otherError m => Except.error ("Request error: " ++ m)

/-! ## Theorems -/

/-- Case characterization of `runMain`, unfolding the let bindings. -/
theorem runMain_cases (apiKey : Option String) (args : Args) (st : Stages) :
    runMain apiKey args st =
      (if apiKeyMissing apiKey then (1, [])
       else if args.command = Command.explore then
         (0, [Event.gatewayInit, Event.exploreCall, Event.printExploration])
       else if (st.generate_spec (st.explore args.endpoints).observations
           args.target_url).success = false then
         (1, [Event.gatewayInit, Event.exploreCall, Event.printExploration,
              Event.specCall])
       else if (st.generate_code (path_join args.output "cloned-env")
           (st.generate_spec (st.explore args.endpoints).observations
             args.target_url).specification).success = false then
         (1, fullTrace args)
       else (0, fullTrace args)) := rfl

/-- C1 counterexample: a run of the `explore` command in which the
Exploration stage reports `success = false` exits with code 0, not 1 —
`cli.py` prints `exploration_result["success"]` but never tests it. -/
theorem exploration_failure_exits_zero :
    (failedExplorationStages.explore exploreArgs.endpoints).success = false ∧
    (runMain (some "key") exploreArgs failedExplorationStages).1 = 0 :=
  ⟨rfl, rfl⟩

/-- C1 (amended): in a `clone` run with the credential present, a
specification-synthesis result with `success = false` makes the process exit
with code 1, and so does a code-generation result with `success = false`;
the Exploration stage's `success` flag is never consulted by the driver. -/
theorem failed_stage_exits_one (apiKey : Option String) (args : Args)
    (st : Stages) (hk : apiKeyMissing apiKey = false)
    (hc : args.command = Command.clone) :
    ((st.generate_spec (st.explore args.endpoints).observations
        args.target_url).success = false → (runMain apiKey args st).1 = 1) ∧
    ((st.generate_code (path_join args.output "cloned-env")
        (st.generate_spec (st.explore args.endpoints).observations
          args.target_url).specification).success = false →
      (runMain apiKey args st).1 = 1) := by
  rw [runMain_cases, hk, hc]
  constructor
  · intro hs
    simp [hs]
  · intro hcg
    by_cases hs : (st.generate_spec (st.explore args.endpoints).observations
        args.target_url).success = false <;> simp [hs, hcg]

/-- Witness for `failed_stage_exits_one` at a concrete failing
specification stage. -/
theorem failed_stage_exits_one_witness :
    (runMain (some "key") cloneArgs specFailStages).1 = 1 :=
  (failed_stage_exits_one (some "key") cloneArgs specFailStages rfl rfl).1 rfl

/-- C2: with the `ANTHROPIC_API_KEY` environment variable unset
(`os.getenv` yields `None`), `main` exits with code 1 with an empty event
trace: no gateway client is constructed and no stage is invoked. -/
theorem missing_credential_exits_early (args : Args) (st : Stages) :
    runMain none args st = (1, []) := rfl

/-- C3: every run's event trace is a prefix of the full pipeline trace
(gateway construction, exploration, result printing, specification call,
output-directory creation, code-generation call, in that order), and after a
stage failure the driver detects — a specification-synthesis result with
`success = false` — the code-generation stage is never invoked. -/
theorem pipeline_sequential (apiKey : Option String) (args : Args)
    (st : Stages) :
    (∃ t, (runMain apiKey args st).2 ++ t = fullTrace args) ∧
    ((st.generate_spec (st.explore args.endpoints).observations
        args.target_url).success = false →
      ∀ d, Event.codeCall d ∉ (runMain apiKey args st).2) := by
  rw [runMain_cases]
  constructor
  · by_cases hk : apiKeyMissing apiKey
    · exact ⟨fullTrace args, by simp [hk]⟩
    · by_cases hc : args.command = Command.explore
      · exact ⟨[Event.specCall, Event.mkdir (path_join args.output "cloned-env"),
          Event.codeCall (path_join args.output "cloned-env")],
          by simp [hk, hc, fullTrace]⟩
      · by_cases hs : (st.generate_spec (st.explore args.endpoints).observations
            args.target_url).success = false
        · exact ⟨[Event.mkdir (path_join args.output "cloned-env"),
            Event.codeCall (path_join args.output "cloned-env")],
            by simp [hk, hc, hs, fullTrace]⟩
        · by_cases hcg : (st.generate_code (path_join args.output "cloned-env")
              (st.generate_spec (st.explore args.endpoints).observations
                args.target_url).specification).success = false <;>
            exact ⟨[], by simp [hk, hc, hs, hcg]⟩
  · intro hs d
    by_cases hk : apiKeyMissing apiKey
    · simp [hk]
    · by_cases hc : args.command = Command.explore <;> simp [hk, hc, hs]

/-- Witness for `pipeline_sequential` at a concrete failing specification
stage: code generation is never invoked. -/
theorem pipeline_sequential_witness :
    ∀ d, Event.codeCall d ∉ (runMain (some "key") cloneArgs specFailStages).2 :=
  (pipeline_sequential (some "key") cloneArgs specFailStages).2 rfl

/-- C6: under the `explore` command the driver never invokes specification
synthesis or code generation and never creates an output directory; with the
credential present its trace is exactly gateway construction, the exploration
call, and the printing of the exploration result. -/
theorem explore_command_runs_only_exploration (apiKey : Option String)
    (args : Args) (st : Stages) (hc : args.command = Command.explore) :
    Event.specCall ∉ (runMain apiKey args st).2 ∧
    (∀ d, Event.codeCall d ∉ (runMain apiKey args st).2) ∧
    (∀ d, Event.mkdir d ∉ (runMain apiKey args st).2) ∧
    (apiKeyMissing apiKey = false →
      (runMain apiKey args st).2 =
        [Event.gatewayInit, Event.exploreCall, Event.printExploration]) := by
  rw [runMain_cases, hc]
  by_cases hk : apiKeyMissing apiKey <;> simp [hk]

/-- Witness for `explore_command_runs_only_exploration` on a concrete
`explore` invocation. -/
theorem explore_command_witness :
    (runMain (some "key") exploreArgs failedExplorationStages).2 =
      [Event.gatewayInit, Event.exploreCall, Event.printExploration] :=
  (explore_command_runs_only_exploration (some "key") exploreArgs
    failedExplorationStages rfl).2.2.2 rfl

/-- C7: whenever a run invokes code generation, its trace is exactly the full
pipeline trace: the generator receives the directory
`path_join args.output "cloned-env"` and the `os.makedirs` of that same
directory immediately precedes the code-generation call. -/
theorem output_dir_is_joined_and_created (apiKey : Option String)
    (args : Args) (st : Stages)
    (h : ∃ d, Event.codeCall d ∈ (runMain apiKey args st).2) :
    (runMain apiKey args st).2 =
      [Event.gatewayInit, Event.exploreCall, Event.printExploration,
       Event.specCall, Event.mkdir (path_join args.output "cloned-env"),
       Event.codeCall (path_join args.output "cloned-env")] := by
  obtain ⟨d, hd⟩ := h
  rw [runMain_cases] at hd ⊢
  by_cases hk : apiKeyMissing apiKey
  · simp [hk] at hd
  · by_cases hc : args.command = Command.explore
    · simp [hk, hc] at hd
    · by_cases hs : (st.generate_spec (st.explore args.endpoints).observations
          args.target_url).success = false
      · simp [hk, hc, hs] at hd
      · by_cases hcg : (st.generate_code (path_join args.output "cloned-env")
            (st.generate_spec (st.explore args.endpoints).observations
              args.target_url).specification).success = false <;>
          simp [hk, hc, hs, hcg, fullTrace]

/-- Witness for `output_dir_is_joined_and_created` on a concrete successful
`clone` run. -/
theorem output_dir_witness :
    (runMain (some "key") cloneArgs allOkStages).2 =
      [Event.gatewayInit, Event.exploreCall, Event.printExploration,
       Event.specCall, Event.mkdir (path_join cloneArgs.output "cloned-env"),
       Event.codeCall (path_join cloneArgs.output "cloned-env")] :=
  output_dir_is_joined_and_created (some "key") cloneArgs allOkStages
    ⟨path_join cloneArgs.output "cloned-env", by
      have h : (runMain (some "key") cloneArgs allOkStages).2 = fullTrace cloneArgs := rfl
      rw [h]
      simp [fullTrace]⟩

/-- The iteration counter of `exploreLoop` grows by at most the remaining
fuel. -/
theorem exploreLoop_iterations_le
    (probe : List Observation → List String → ProbeStep) :
    ∀ fuel obs frontier used,
      (exploreLoop probe fuel obs frontier used).1 ≤ used + fuel := by
  intro fuel
  induction fuel with
  | zero => intro obs frontier used; simp [exploreLoop]
  | succ n ih =>
      intro obs frontier used
      cases frontier with
      | nil => simp [exploreLoop]
      | cons t rest =>
          simp only [exploreLoop]
          split
          · simp
          · exact le_trans (ih _ _ _) (by omega)

/-- C4: for every probe behaviour, starting frontier and budget `N`,
the `iterations` field of `explore(..., max_iterations := N)` is at most
`N`. -/
theorem explore_iterations_le_max
    (probe : List Observation → List String → ProbeStep)
    (starting_endpoints : Option (List String)) (N : Nat) :
    (explore probe starting_endpoints N).iterations ≤ N := by
  cases starting_endpoints with
  | none =>
      simpa [explore] using exploreLoop_iterations_le probe N [] ["/"] 0
  | some eps =>
      simpa [explore] using exploreLoop_iterations_le probe N [] eps 0

/-- C5: two runs of `generate_code` on the same specification that both
succeed produce identical `generated_files` path lists — the file set is a
function of the specification content alone, independent of the write
environment (in particular of files left behind by the first run). -/
theorem generate_code_idempotent (s : Specification) (w₁ w₂ : String → Bool)
    (h₁ : (generate_code s w₁).success = true)
    (h₂ : (generate_code s w₂).success = true) :
    (generate_code s w₁).generated_files = (generate_code s w₂).generated_files := by
  by_cases he : s.endpoints.isEmpty
  · simp [generate_code, he] at h₁
  · simp only [generate_code, he, if_neg, Bool.false_eq_true, ite_false] at h₁ h₂ ⊢
    rw [List.filter_eq_self.mpr, List.filter_eq_self.mpr]
    · intro a ha
      exact List.all_eq_true.mp h₂ a ha
    · intro a ha
      exact List.all_eq_true.mp h₁ a ha

/-- Witness for `generate_code_idempotent`: two successful runs over
different write environments yield the same file list. -/
theorem generate_code_idempotent_witness :
    (generate_code sampleSpecification (fun _ => true)).generated_files =
      (generate_code sampleSpecification (fun p => !(p == "other"))).generated_files :=
  generate_code_idempotent sampleSpecification _ _ rfl rfl

/-- The `ok` results of a handler mapped through `textItem` are singleton
text items; errors pass through. -/
theorem map_textItem_shape (r : Except String String) :
    (∃ t, r.map textItem = Except.ok (textItem t)) ∨
    (∃ e, r.map textItem = Except.error e) := by
  cases r with
  | ok t => exact Or.inl ⟨t, rfl⟩
  | error e => exact Or.inr ⟨e, rfl⟩

/-- Every outcome of the dispatch is either a singleton text item or an
exception. -/
theorem dispatchTool_shape (h : ToolHandlers) (name : String)
    (args : ToolArgs) :
    (∃ t, dispatchTool h name args = Except.ok (textItem t)) ∨
    (∃ e, dispatchTool h name args = Except.error e) := by
  unfold dispatchTool
  split_ifs <;> first
    | exact map_textItem_shape _
    | exact Or.inl ⟨_, rfl⟩

/-- C8: `call_tool` always returns exactly one `{"type": "text"}` item; an
unknown tool name yields the `"Unknown tool: {name}"` text, and an exception
`e` escaping a known tool's branch (an error of the dispatch) yields the
`"Error executing {name}: {e}"` text. -/
theorem call_tool_total (h : ToolHandlers) (name : String) (args : ToolArgs) :
    (∃ t, call_tool h name args = [{ type := "text", text := t }]) ∧
    (name ∉ knownToolNames →
      call_tool h name args =
        [{ type := "text", text := "Unknown tool: " ++ name }]) ∧
    (∀ e, dispatchTool h name args = Except.error e →
      call_tool h name args =
        [{ type := "text", text := "Error executing " ++ name ++ ": " ++ e }]) := by
  refine ⟨?_, ?_, ?_⟩
  · rcases dispatchTool_shape h name args with ⟨t, ht⟩ | ⟨e, he⟩
    · exact ⟨t, by rw [call_tool, ht]; rfl⟩
    · exact ⟨"Error executing " ++ name ++ ": " ++ e, by rw [call_tool, he]; rfl⟩
  · intro hmem
    simp only [knownToolNames, List.mem_cons, List.not_mem_nil, or_false] at hmem
    push_neg at hmem
    obtain ⟨h1, h2, h3, h4, h5, h6, h7⟩ := hmem
    rw [call_tool, dispatchTool, if_neg h1, if_neg h2, if_neg h3, if_neg h4,
      if_neg h5, if_neg h6, if_neg h7]
    rfl
  · intro e he
    rw [call_tool, he]
    rfl

/-- Witness for `call_tool_total`: an unknown tool name produces the
`"Unknown tool"` text item. -/
theorem call_tool_total_witness :
    call_tool trivialHandlers "delete_article" [] =
      [{ type := "text", text := "Unknown tool: delete_article" }] :=
  (call_tool_total trivialHandlers "delete_article" []).2.1 (by decide)

/-- Every article collected by `searchLoop` was already collected or is a
matching member of the remaining page. -/
theorem searchLoop_mem (ql : String) (limit : Int) :
    ∀ rest acc a, a ∈ searchLoop ql limit acc rest →
      a ∈ acc ∨ (a ∈ rest ∧ articleMatches ql a = true) := by
  intro rest
  induction rest with
  | nil => intro acc a ha; exact Or.inl ha
  | cons x xs ih =>
      intro acc a ha
      simp only [searchLoop] at ha
      by_cases hm : articleMatches ql x
      · rw [if_pos hm] at ha
        by_cases hl : ((acc ++ [x]).length : Int) ≥ limit
        · rw [if_pos hl] at ha
          rcases List.mem_append.mp ha with hy | hy
          · exact Or.inl hy
          · rw [List.mem_singleton] at hy
            subst hy
            exact Or.inr ⟨List.mem_cons_self _ _, hm⟩
        · rw [if_neg hl] at ha
          rcases ih _ _ ha with hy | hy
          · rcases List.mem_append.mp hy with hz | hz
            · exact Or.inl hz
            · rw [List.mem_singleton] at hz
              subst hz
              exact Or.inr ⟨List.mem_cons_self _ _, hm⟩
          · exact Or.inr ⟨List.mem_cons_of_mem _ hy.1, hy.2⟩
      · rw [if_neg hm] at ha
        rcases ih _ _ ha with hy | hy
        · exact Or.inl hy
        · exact Or.inr ⟨List.mem_cons_of_mem _ hy.1, hy.2⟩

/-- Started below the limit, `searchLoop` never collects more than `limit`
articles. -/
theorem searchLoop_length_le (ql : String) (limit : Int) :
    ∀ rest acc, (acc.length : Int) < limit →
      ((searchLoop ql limit acc rest).length : Int) ≤ limit := by
  intro rest
  induction rest with
  | nil => intro acc h; exact le_of_lt h
  | cons x xs ih =>
      intro acc h
      simp only [searchLoop]
      by_cases hm : articleMatches ql x
      · rw [if_pos hm]
        by_cases hl : ((acc ++ [x]).length : Int) ≥ limit
        · rw [if_pos hl]
          simp only [List.length_append, List.length_singleton]
          push_cast
          omega
        · rw [if_neg hl]
          exact ih _ (lt_of_not_ge hl)
      · rw [if_neg hm]
        exact ih _ h

/-- C9: for `limit ≥ 1`, `search_articles` returns a result whose
`articlesCount` equals the length of its `articles` list, that list has at
most `limit` elements, and every element comes from the fetched page and
contains the lowered query in its lowered title, description, or body. -/
theorem search_articles_sound (page : ArticlesPage) (query : String)
    (limit : Int) (hl : 1 ≤ limit) :
    (search_articles page query limit).articlesCount =
      (search_articles page query limit).articles.length ∧
    ((search_articles page query limit).articles.length : Int) ≤ limit ∧
    (∀ a ∈ (search_articles page query limit).articles,
      a ∈ page.articles.getD [] ∧ articleMatches query.toLower a = true) := by
  rcases hp : page.articles with _ | ⟨_ | ⟨x, xs⟩⟩
  · simp [search_articles, hp]
    omega
  · simp [search_articles, hp]
    omega
  · have hms : search_articles page query limit =
        { articles := searchLoop query.toLower limit [] (x :: xs)
          articlesCount := (searchLoop query.toLower limit [] (x :: xs)).length } := by
      simp [search_articles, hp]
    rw [hms]
    refine ⟨rfl, ?_, ?_⟩
    · exact searchLoop_length_le query.toLower limit (x :: xs) []
        (by simp only [List.length_nil, Int.natCast_zero, Nat.cast_zero]; omega)
    · intro a ha
      rcases searchLoop_mem query.toLower limit (x :: xs) [] a ha with hy | hy
      · simp at hy
      · exact ⟨by simp [hp, hy.1], hy.2⟩

/-- Witness for `search_articles_sound` on a concrete page and query. -/
theorem search_articles_sound_witness :
    (1 : Int) ≤ 1 ∧
    (search_articles samplePage "lean" 1).articlesCount =
      (search_articles samplePage "lean" 1).articles.length ∧
    ((search_articles samplePage "lean" 1).articles.length : Int) ≤ 1 :=
  ⟨le_refl 1, (search_articles_sound samplePage "lean" 1 (le_refl 1)).1,
    (search_articles_sound samplePage "lean" 1 (le_refl 1)).2.1⟩

/-- C10: `_request` (embedded as `httpRequest`) either returns the parsed
body of a 2xx response, or fails with a message prefixed
`"API request failed: "` (any `httpx.HTTPError`, including `raise_for_status`
on a non-2xx response), or fails with a message prefixed
`"Request error: "` (any other exception); it never returns a value
otherwise. -/
theorem request_trichotomy {α : Type} (attempt : HttpAttempt α) :
    (∃ s j m v, attempt = HttpAttempt.response s j m ∧ is_success s = true ∧
      j = Except.ok v ∧ httpRequest attempt = Except.ok v) ∨
    (∃ m, httpRequest attempt = Except.error ("API request failed: " ++ m)) ∨
    (∃ m, httpRequest attempt = Except.error ("Request error: " ++ m)) := by
  cases attempt with
  | httpError m => exact Or.inr (Or.inl ⟨m, rfl⟩)
  | otherError m => exact Or.inr (Or.inr ⟨m, rfl⟩)
  | response s j msg =>
      cases hs : is_success s with
      | true =>
          cases j with
          | ok v =>
              exact Or.inl ⟨s, Except.ok v, msg, v, rfl, hs, rfl,
                by simp [httpRequest, hs]⟩
          | error m =>
              exact Or.inr (Or.inr ⟨m, by simp [httpRequest, hs]⟩)
      | false =>
          exact Or.inr (Or.inl ⟨msg, by simp [httpRequest, hs]⟩)

end EnvCodeAgent
